import Mathlib

/- Verification of the per-connection query pipeline of nss-tlsd.c: the
request decoder and DoH query builder (on_req), the JSON answer selector
(on_answer), the response path (on_res, on_done) and the session cleanup
discipline.  json-glib, libsoup and libc boundaries are embedded at the
interface granularity the daemon observes. -/

namespace NssTls

/-- JSON values as produced by json-glib when parsing the resolver body.
Integer nodes model json-glib int value nodes; the answers this program
consumes contain only ints, strings, arrays and objects. -/
inductive Json where
  | null : Json
  | bool (b : Bool) : Json
  | int (n : Int) : Json
  | str (s : String) : Json
  | arr (elems : List Json) : Json
  | obj (members : List (String × Json)) : Json

/-- Linux value of the AF_INET address family constant (IPv4). -/
def AF_INET : Nat := 2

/-- Linux value of the AF_INET6 address family constant (IPv6). -/
def AF_INET6 : Nat := 10

/-- Modelled from the spec: the response struct nss_tls_res of nss-tls.h (a
header of this repository absent from src/) holds one fixed-size address
buffer sized for the larger of an IPv4 or an IPv6 address, i.e. 16 bytes. -/
def addrSize : Nat := 16

/-- Modelled from the spec: sizeof(struct nss_tls_req) from nss-tls.h
(absent from src/), a fixed-capacity null-terminated hostname buffer plus an
address-family integer.  The exact byte count is a fixed protocol constant;
any fixed value preserves the exact-frame-size check of on_req. -/
def sizeof_nss_tls_req : Nat := 260

/-- Modelled from the spec: the NSS_TLS_RESOLVER macro, the statically
configured resolver host, defined outside src/. -/
def NSS_TLS_RESOLVER : String := "resolver.example"

/-- Splits a character list on a separator, keeping empty groups, the way
the scanning loops of inet_pton treat the separator characters. -/
def splitOnChar (sep : Char) : List Char → List (List Char)
  | [] => [[]]
  | c :: cs =>
    let rest := splitOnChar sep cs
    if c = sep then [] :: rest
    else
      match rest with
      | [] => [[c]]
      | g :: gs => (c :: g) :: gs

/-- Runs a fallible function over a list, failing when any element fails. -/
def mapOption {α β : Type} (f : α → Option β) : List α → Option (List β)
  | [] => some []
  | a :: as =>
    match f a, mapOption f as with
    | some b, some bs => some (b :: bs)
    | _, _ => none

/-- Modelled from the spec: one decimal octet of a dotted-quad address as
libc (glibc) inet_pton accepts it for AF_INET: nonempty, all digits, no
leading zero, value at most 255. -/
def parseOctet (g : List Char) : Option Nat :=
  if g.isEmpty then none
  else if ¬ g.all Char.isDigit then none
  else if 1 < g.length ∧ g.head? = some ('0') then none
  else
    let v := g.foldl (fun a c => a * 10 + (c.toNat - 48)) 0
    if v ≤ 255 then some v else none

/-- Modelled from the spec: libc inet_pton for AF_INET, exactly four
dot-separated decimal octets, yielding the four address bytes. -/
def inet_pton4 (s : String) : Option (List Nat) :=
  match mapOption parseOctet (splitOnChar ('.') s.toList) with
  | some vs => if vs.length = 4 then some vs else none
  | none => none

/-- Is the character a hexadecimal digit. -/
def isHexDigitChar (c : Char) : Bool :=
  c.isDigit || (('a') ≤ c && c ≤ ('f')) || (('A') ≤ c && c ≤ ('F'))

/-- Numeric value of a hexadecimal digit character. -/
def hexVal (c : Char) : Nat :=
  if c.isDigit then c.toNat - 48
  else if ('a') ≤ c && c ≤ ('f') then c.toNat - 87
  else c.toNat - 55

/-- Modelled from the spec: one colon-separated group of an IPv6 textual
address, one to four hexadecimal digits. -/
def parseHexGroup (g : List Char) : Option Nat :=
  if g.isEmpty then none
  else if 4 < g.length then none
  else if ¬ g.all isHexDigitChar then none
  else some (g.foldl (fun a c => a * 16 + hexVal c) 0)

/-- Turns 16-bit group values into the big-endian byte list inet_pton
stores for AF_INET6. -/
def groupsToBytes : List Nat → List Nat
  | [] => []
  | v :: vs => v / 256 :: v % 256 :: groupsToBytes vs

/-- Modelled from the spec: libc inet_pton for AF_INET6, restricted to the
fully spelled colon-hex form of eight groups; the claims exercise only the
success/failure dichotomy and the 16-byte output size. -/
def inet_pton6 (s : String) : Option (List Nat) :=
  match mapOption parseHexGroup (splitOnChar (':') s.toList) with
  | some vs => if vs.length = 8 then some (groupsToBytes vs) else none
  | none => none

/-- Modelled from the spec: libc inet_pton dispatching on the address
family; on success exactly the family-sized address bytes (4 for AF_INET,
16 for AF_INET6) are produced, on failure nothing is written. -/
def inet_pton (af : Nat) (s : String) : Option (List Nat) :=
  if af = AF_INET then inet_pton4 s
  else if af = AF_INET6 then inet_pton6 s
  else none

/-- json-glib json_node_get_object: the member list of an object node, or
NULL when the node does not hold an object. -/
def json_node_get_object : Json → Option (List (String × Json))
  | .obj ms => some ms
  | _ => none

/-- json-glib json_object_get_member: the first member with the given name,
or NULL when absent. -/
def json_object_get_member : List (String × Json) → String → Option Json
  | [], _ => none
  | (k, v) :: rest, key =>
    if k = key then some v else json_object_get_member rest key

/-- json-glib json_node_get_int: the integer value of a value node;
booleans coerce to 0 or 1 and non-numeric nodes yield 0. -/
def json_node_get_int : Json → Int
  | .int n => n
  | .bool b => if b then 1 else 0
  | _ => 0

/-- json-glib json_node_get_string: the string value, or NULL when the node
does not hold a string. -/
def json_node_get_string : Json → Option String
  | .str s => some s
  | _ => none

/-- json-glib json_object_get_array_member: the array member with the given
name, or NULL when it is absent or not an array. -/
def json_object_get_array_member (ms : List (String × Json)) (key : String) :
    Option (List Json) :=
  match json_object_get_member ms key with
  | some (.arr xs) => some xs
  | _ => none

/-- The parts of struct nss_tls_query that on_answer reads and writes: the
response address buffer res.addr and the ok flag. -/
structure QueryState where
  addr : List Nat
  ok : Bool
deriving DecidableEq

/-- Overwrites the leading bytes of the address buffer, which is what
inet_pton does when it stores a parsed address into res.addr; the tail of
the buffer is untouched. -/
def writeAddr (buf newBytes : List Nat) : List Nat :=
  newBytes ++ buf.drop newBytes.length

/-- on_answer of nss-tlsd.c, the json_array_foreach_element callback run on
one answer element; af is query.req.af and want is query.type.  An element
that is not an object gives a NULL JsonObject, on which the type-member
lookup yields NULL, so it is skipped like a missing type member. -/
def on_answer (af : Nat) (want : Int) (st : QueryState) (el : Json) :
    QueryState :=
  match json_node_get_object el with
  | none => st
  | some answero =>
    match json_object_get_member answero ("type") with
    | none => st
    | some ty =>
      if json_node_get_int ty ≠ want then st
      else
        match json_object_get_member answero ("data") with
        | none => st
        | some d =>
          match json_node_get_string d with
          | none => st
          | some s =>
            match inet_pton af s with
            | none => st
            | some bytes => { addr := writeAddr st.addr bytes, ok := true }

/-- The Answer Selector: json_array_foreach_element(answers, on_answer,
query), starting from the zero-initialized response buffer (the query is
allocated with g_new0) with the ok flag just cleared by on_res. -/
def select (af : Nat) (want : Int) (answers : List Json) : QueryState :=
  answers.foldl (on_answer af want) ⟨List.replicate addrSize 0, false⟩

/-- The address bytes one answer element contributes, following exactly the
skip structure of on_answer: none when the element is skipped, the parsed
bytes when it matches and parses. -/
def extractAddr (af : Nat) (want : Int) (el : Json) : Option (List Nat) :=
  match json_node_get_object el with
  | none => none
  | some answero =>
    match json_object_get_member answero ("type") with
    | none => none
    | some ty =>
      if json_node_get_int ty ≠ want then none
      else
        match json_object_get_member answero ("data") with
        | none => none
        | some d =>
          match json_node_get_string d with
          | none => none
          | some s => inet_pton af s

/-- Replays a list of successfully extracted addresses into the query
state, the way successive successful on_answer steps do. -/
def applyExtracts : QueryState → List (List Nat) → QueryState
  | st, [] => st
  | st, bs :: rest => applyExtracts ⟨writeAddr st.addr bs, true⟩ rest

/-- The family-sized address byte count: 4 for AF_INET, 16 otherwise. -/
def famLen (af : Nat) : Nat := if af = AF_INET then 4 else 16

/-- Outcome of one resolver interaction as on_res observes it: the HTTP
status and transport success of the send, and the JSON body when the
response stream parses (none models a json_parser_load_from_stream failure
or an empty root). -/
structure ResolverInteraction where
  status : Nat
  netOk : Bool
  body : Option Json

/-- Modelled from the spec: the transport boundary of
soup_session_send_finish.  A network error, a timeout or a non-success
HTTP status all surface as a failed send (a NULL stream); on success
on_res receives the body stream, whose JSON parse is the body field. -/
def send_finish (r : ResolverInteraction) : Option (Option Json) :=
  if r.netOk = true ∧ 200 ≤ r.status ∧ r.status ≤ 299 then some r.body
  else none

/-- on_res of nss-tlsd.c: clears ok, takes the send result, parses the
body, requires a root object carrying an Answer array member, runs the
Answer Selector, and hands the fixed-size response buffer to
g_output_stream_write_all_async only when ok was set.  The returned bytes
are exactly what the write is given; none means the connection is closed
with no bytes written. -/
def on_res (af : Nat) (want : Int) (r : ResolverInteraction) :
    Option (List Nat) :=
  match send_finish r with
  | none => none
  | some none => none
  | some (some root) =>
    match json_node_get_object root with
    | none => none
    | some rooto =>
      match json_object_get_array_member rooto ("Answer") with
      | none => none
      | some answers =>
        if (select af want answers).ok then some (select af want answers).addr
        else none

/-- Request struct nss_tls_req: hostname and address family (modelled from
the spec for the header absent from src/). -/
structure NssTlsReq where
  name : String
  af : Nat
deriving DecidableEq

/-- Result of g_input_stream_read_all_finish together with the bytes-read
count and the request the buffer then holds. -/
inductive ReadOutcome where
  | readError : ReadOutcome
  | readOk (len : Nat) (req : NssTlsReq) : ReadOutcome
deriving DecidableEq

/-- What on_req does next: closed is the fail path (unref the connection,
free the query, no network call); fetch carries the URL handed to
soup_session_send_async and the wanted DNS type code stored in query.type. -/
inductive ReqAction where
  | closed : ReqAction
  | fetch (url : String) (dnsType : Int) (req : NssTlsReq) : ReqAction
deriving DecidableEq

/-- on_req of nss-tlsd.c: reject a failed read, a frame whose byte count is
not exactly sizeof(struct nss_tls_req), and an address family other than
AF_INET or AF_INET6; otherwise derive the DNS type code and build the DoH
GET URL by printf interpolation of the request name. -/
def on_req : ReadOutcome → ReqAction
  | .readError => .closed
  | .readOk len req =>
    if len ≠ sizeof_nss_tls_req then .closed
    else if req.af = AF_INET then
      .fetch ("https://" ++ NSS_TLS_RESOLVER ++
        "/dns-query?ct=application/dns-json&name=" ++ req.name ++ "&type=A")
        1 req
    else if req.af = AF_INET6 then
      .fetch ("https://" ++ NSS_TLS_RESOLVER ++
        "/dns-query?ct=application/dns-json&name=" ++ req.name ++ "&type=AAAA")
        28 req
    else .closed

/-- Observable session events: reading the request frame, issuing the DoH
fetch, writing the response, and releasing the connection and the query
memory (g_object_unref plus g_free, always adjacent in the source). -/
inductive Ev where
  | readReq : Ev
  | fetchEv : Ev
  | writeRes : Ev
  | release : Ev
deriving DecidableEq

/-- One session's event trace, composing on_req, on_res and on_done along
the callback chain of nss-tlsd.c; writeOk is whether the final
g_output_stream_write_all_finish succeeds, which on_done ignores apart
from logging before it releases the session. -/
def sessionTrace (rr : ReadOutcome) (tr : ResolverInteraction)
    (writeOk : Bool) : List Ev :=
  match on_req rr with
  | .closed => [Ev.readReq, Ev.release]
  | .fetch _ ty req =>
    match on_res req.af ty tr with
    | none => [Ev.readReq, Ev.fetchEv, Ev.release]
    | some _ => [Ev.readReq, Ev.fetchEv, Ev.writeRes, Ev.release]

theorem on_answer_eq_extract (af : Nat) (want : Int) (st : QueryState)
    (el : Json) :
    on_answer af want st el =
      match extractAddr af want el with
      | none => st
      | some bs => ⟨writeAddr st.addr bs, true⟩ := by
  unfold on_answer extractAddr
  split
  · rfl
  · split
    · rfl
    · split
      · rfl
      · split
        · rfl
        · split
          · rfl
          · split
            · rfl
            · rfl

theorem foldl_on_answer_eq (af : Nat) (want : Int) :
    ∀ (answers : List Json) (st : QueryState),
      answers.foldl (on_answer af want) st =
        applyExtracts st (answers.filterMap (extractAddr af want)) := by
  intro answers
  induction answers with
  | nil => intro st; rfl
  | cons a as ih =>
    intro st
    rw [List.foldl_cons, List.filterMap_cons, on_answer_eq_extract]
    cases h : extractAddr af want a with
    | none => exact ih st
    | some bs => exact ih _

theorem applyExtracts_ok_mono :
    ∀ (l : List (List Nat)) (st : QueryState),
      st.ok = true → (applyExtracts st l).ok = true := by
  intro l
  induction l with
  | nil => intro st h; exact h
  | cons b rest ih => intro st _; exact ih ⟨writeAddr st.addr b, true⟩ rfl

theorem applyExtracts_cons_ok (l : List (List Nat)) (st : QueryState)
    (bs : List Nat) : (applyExtracts st (bs :: l)).ok = true :=
  applyExtracts_ok_mono l ⟨writeAddr st.addr bs, true⟩ rfl

theorem select_ok_iff (af : Nat) (want : Int) (answers : List Json) :
    (select af want answers).ok = true ↔
      answers.filterMap (extractAddr af want) ≠ [] := by
  unfold select
  rw [foldl_on_answer_eq]
  cases h : answers.filterMap (extractAddr af want) with
  | nil => simp [applyExtracts]
  | cons b rest => simp [applyExtracts_cons_ok]

theorem applyExtracts_drop :
    ∀ (l : List (List Nat)) (st : QueryState) (n : Nat),
      (∀ b ∈ l, b.length = n) →
      (applyExtracts st l).addr.drop n = st.addr.drop n := by
  intro l
  induction l with
  | nil => intro st n _; rfl
  | cons b rest ih =>
    intro st n h
    have hb : b.length = n := h b (by simp)
    have hr : ∀ x ∈ rest, x.length = n := fun x hx => h x (by simp [hx])
    subst hb
    show (applyExtracts ⟨writeAddr st.addr b, true⟩ rest).addr.drop b.length
        = st.addr.drop b.length
    rw [ih _ _ hr]
    show (b ++ st.addr.drop b.length).drop b.length = st.addr.drop b.length
    rw [List.drop_left]

theorem applyExtracts_length :
    ∀ (l : List (List Nat)) (st : QueryState) (n : Nat),
      (∀ b ∈ l, b.length = n) → n ≤ st.addr.length →
      (applyExtracts st l).addr.length = st.addr.length := by
  intro l
  induction l with
  | nil => intro st n _ _; rfl
  | cons b rest ih =>
    intro st n h hn
    have hb : b.length = n := h b (by simp)
    have hr : ∀ x ∈ rest, x.length = n := fun x hx => h x (by simp [hx])
    have hw : (writeAddr st.addr b).length = st.addr.length := by
      simp only [writeAddr, List.length_append, List.length_drop]
      omega
    show (applyExtracts ⟨writeAddr st.addr b, true⟩ rest).addr.length
        = st.addr.length
    rw [ih _ n hr (by rw [hw]; exact hn)]
    exact hw

theorem applyExtracts_concat :
    ∀ (l : List (List Nat)) (st : QueryState) (b : List Nat),
      applyExtracts st (l ++ [b]) =
        ⟨writeAddr (applyExtracts st l).addr b, true⟩ := by
  intro l
  induction l with
  | nil => intro st b; rfl
  | cons c rest ih => intro st b; exact ih _ b

theorem inet_pton4_length (s : String) (bs : List Nat)
    (h : inet_pton4 s = some bs) : bs.length = 4 := by
  unfold inet_pton4 at h
  split at h
  · split at h
    · injection h with h
      subst h
      assumption
    · cases h
  · cases h

theorem groupsToBytes_length :
    ∀ vs : List Nat, (groupsToBytes vs).length = 2 * vs.length := by
  intro vs
  induction vs with
  | nil => rfl
  | cons v vs ih =>
    simp only [groupsToBytes, List.length_cons, ih]
    omega

theorem inet_pton6_length (s : String) (bs : List Nat)
    (h : inet_pton6 s = some bs) : bs.length = 16 := by
  unfold inet_pton6 at h
  split at h
  · split at h
    · injection h with h
      subst h
      rw [groupsToBytes_length]
      omega
    · cases h
  · cases h

theorem inet_pton_length (af : Nat) (s : String) (bs : List Nat)
    (h : inet_pton af s = some bs) : bs.length = famLen af := by
  unfold inet_pton at h
  unfold famLen
  split at h
  · next haf => rw [if_pos haf]; exact inet_pton4_length s bs h
  · next haf =>
    rw [if_neg haf]
    split at h
    · exact inet_pton6_length s bs h
    · cases h

theorem extractAddr_length (af : Nat) (want : Int) (el : Json)
    (bs : List Nat) (h : extractAddr af want el = some bs) :
    bs.length = famLen af := by
  unfold extractAddr at h
  split at h
  · cases h
  · split at h
    · cases h
    · split at h
      · cases h
      · split at h
        · cases h
        · split at h
          · cases h
          · exact inet_pton_length af _ bs h

theorem extractAddr_same_length (af : Nat) (want : Int) (l : List Json)
    (bs : List Nat) (hbs : bs.length = famLen af) :
    ∀ b ∈ l.filterMap (extractAddr af want), b.length = bs.length := by
  intro b hb
  obtain ⟨x, _, hxe⟩ := List.mem_filterMap.mp hb
  rw [extractAddr_length af want x b hxe, hbs]

theorem on_answer_skip (af : Nat) (want : Int) (st : QueryState)
    (m : List (String × Json))
    (h : json_object_get_member m ("type") = none ∨
         ∃ t, json_object_get_member m ("type") = some t ∧
           json_node_get_int t = want ∧
           (json_object_get_member m ("data") = none ∨
            ∃ d, json_object_get_member m ("data") = some d ∧
              json_node_get_string d = none)) :
    on_answer af want st (Json.obj m) = st := by
  rw [on_answer_eq_extract]
  have hext : extractAddr af want (Json.obj m) = none := by
    show (match json_object_get_member m ("type") with
      | none => none
      | some ty =>
        if json_node_get_int ty ≠ want then none
        else
          match json_object_get_member m ("data") with
          | none => none
          | some d =>
            match json_node_get_string d with
            | none => none
            | some s => inet_pton af s) = none
    rcases h with h | ⟨t, ht, htt, h2⟩
    · rw [h]
    · rcases h2 with h2 | ⟨d, hd, hds⟩
      · simp [ht, htt, h2]
      · simp [ht, htt, hd, hds]
  rw [hext]

/-- C1: for an answer array holding two or more records of the wanted type
whose data fields parse as addresses of the requested family, the Answer
Selector sets ok and its selected address is that of the last matching,
successfully parsed record in array order, each later such record having
overwritten the previous selection. -/
theorem select_last_match_wins (af : Nat) (want : Int)
    (l1 l2 : List Json) (r : Json) (bs : List Nat)
    (hr : extractAddr af want r = some bs)
    (hafter : ∀ x ∈ l2, extractAddr af want x = none)
    (hbefore : ∃ x ∈ l1, (extractAddr af want x).isSome = true) :
    (select af want (l1 ++ r :: l2)).ok = true ∧
    (select af want (l1 ++ r :: l2)).addr =
      bs ++ (List.replicate addrSize 0).drop bs.length := by
  have hfm : (l1 ++ r :: l2).filterMap (extractAddr af want) =
      l1.filterMap (extractAddr af want) ++ [bs] := by
    rw [List.filterMap_append, List.filterMap_cons, hr,
        List.filterMap_eq_nil_iff.mpr hafter]
  unfold select
  rw [foldl_on_answer_eq, hfm, applyExtracts_concat]
  refine ⟨rfl, ?_⟩
  show writeAddr _ bs = _
  unfold writeAddr
  congr 1
  have hlen : ∀ b ∈ l1.filterMap (extractAddr af want),
      b.length = bs.length :=
    extractAddr_same_length af want l1 bs
      (extractAddr_length af want r bs hr)
  exact applyExtracts_drop _ _ bs.length hlen

/-- C1 witness: two valid A records; the selected address is the second
record's 5.6.7.8, not the first record's 1.2.3.4. -/
theorem select_last_match_wins_witness :
    (select 2 1
      [Json.obj [("type", Json.int 1), ("data", Json.str ("1.2.3.4"))],
       Json.obj [("type", Json.int 1), ("data", Json.str ("5.6.7.8"))]]).ok
      = true ∧
    (select 2 1
      [Json.obj [("type", Json.int 1), ("data", Json.str ("1.2.3.4"))],
       Json.obj [("type", Json.int 1), ("data", Json.str ("5.6.7.8"))]]).addr
      = [5, 6, 7, 8] ++
        (List.replicate addrSize 0).drop (List.length [5, 6, 7, 8]) :=
  select_last_match_wins 2 1
    [Json.obj [("type", Json.int 1), ("data", Json.str ("1.2.3.4"))]] []
    (Json.obj [("type", Json.int 1), ("data", Json.str ("5.6.7.8"))])
    [5, 6, 7, 8] (by decide)
    (fun x hx => absurd hx (List.not_mem_nil x))
    ⟨Json.obj [("type", Json.int 1), ("data", Json.str ("1.2.3.4"))],
      List.mem_cons_self _ _, by decide⟩

/-- C2: a matching-type record whose data does not parse as an address of
the requested family is skipped: appending it to the answer array leaves
the selection (address and ok flag) unchanged, and the selector ends
without a selection exactly when no matching record at all parses. -/
theorem failed_parse_keeps_selection (af : Nat) (want : Int)
    (answers : List Json) (m : List (String × Json)) (t d : Json)
    (s : String)
    (ht : json_object_get_member m ("type") = some t)
    (htt : json_node_get_int t = want)
    (hd : json_object_get_member m ("data") = some d)
    (hs : json_node_get_string d = some s)
    (hp : inet_pton af s = none) :
    select af want (answers ++ [Json.obj m]) = select af want answers ∧
    ((select af want (answers ++ [Json.obj m])).ok = false ↔
      answers.filterMap (extractAddr af want) = []) := by
  have hext : extractAddr af want (Json.obj m) = none := by
    show (match json_object_get_member m ("type") with
      | none => none
      | some ty =>
        if json_node_get_int ty ≠ want then none
        else
          match json_object_get_member m ("data") with
          | none => none
          | some d =>
            match json_node_get_string d with
            | none => none
            | some s => inet_pton af s) = none
    simp [ht, htt, hd, hs, hp]
  have h1 : select af want (answers ++ [Json.obj m]) =
      select af want answers := by
    unfold select
    rw [List.foldl_append, List.foldl_cons, List.foldl_nil,
        on_answer_eq_extract, hext]
  refine ⟨h1, ?_⟩
  rw [h1, ← Bool.not_eq_true, select_ok_iff]
  exact not_not

/-- C2 witness: a valid A record followed by a same-type record whose data
999.99.9.9999 fails IPv4 parsing; the selection still holds 1.2.3.4 and the
selector did not end empty. -/
theorem failed_parse_keeps_selection_witness :
    select 2 1
      [Json.obj [("type", Json.int 1), ("data", Json.str ("1.2.3.4"))],
       Json.obj [("type", Json.int 1), ("data", Json.str ("999.99.9.9999"))]]
      = select 2 1
        [Json.obj [("type", Json.int 1), ("data", Json.str ("1.2.3.4"))]] ∧
    ((select 2 1
      [Json.obj [("type", Json.int 1), ("data", Json.str ("1.2.3.4"))],
       Json.obj [("type", Json.int 1),
         ("data", Json.str ("999.99.9.9999"))]]).ok = false ↔
      [Json.obj [("type", Json.int 1),
        ("data", Json.str ("1.2.3.4"))]].filterMap (extractAddr 2 1) = []) :=
  failed_parse_keeps_selection 2 1
    [Json.obj [("type", Json.int 1), ("data", Json.str ("1.2.3.4"))]]
    [("type", Json.int 1), ("data", Json.str ("999.99.9.9999"))]
    (Json.int 1) (Json.str ("999.99.9.9999")) ("999.99.9.9999")
    rfl rfl rfl rfl (by decide)

/-- C9: an answer record lacking a type member, or of matching type but
lacking a data member or carrying non-string data, is skipped: the
on_answer step leaves the state (selected address and ok flag) unchanged,
and scanning the surrounding array proceeds exactly as if the record were
absent. -/
theorem malformed_record_skipped (af : Nat) (want : Int) (st : QueryState)
    (m : List (String × Json)) (l1 l2 : List Json)
    (h : json_object_get_member m ("type") = none ∨
         ∃ t, json_object_get_member m ("type") = some t ∧
           json_node_get_int t = want ∧
           (json_object_get_member m ("data") = none ∨
            ∃ d, json_object_get_member m ("data") = some d ∧
              json_node_get_string d = none)) :
    on_answer af want st (Json.obj m) = st ∧
    select af want (l1 ++ Json.obj m :: l2) = select af want (l1 ++ l2) := by
  refine ⟨on_answer_skip af want st m h, ?_⟩
  unfold select
  rw [List.foldl_append, List.foldl_cons,
      on_answer_skip af want _ m h, ← List.foldl_append]

/-- C9 witness: a record with only a data member, dropped in the middle of
a scan whose state already selected 1.2.3.4; the state and the overall
selection are unchanged. -/
theorem malformed_record_skipped_witness :
    on_answer 2 1 ⟨[1, 2, 3, 4] ++ List.replicate 12 0, true⟩
      (Json.obj [("data", Json.str ("5.6.7.8"))])
      = ⟨[1, 2, 3, 4] ++ List.replicate 12 0, true⟩ ∧
    select 2 1
      [Json.obj [("type", Json.int 1), ("data", Json.str ("1.2.3.4"))],
       Json.obj [("data", Json.str ("5.6.7.8"))],
       Json.obj [("type", Json.int 1), ("data", Json.str ("9.9.9.9"))]]
      = select 2 1
        [Json.obj [("type", Json.int 1), ("data", Json.str ("1.2.3.4"))],
         Json.obj [("type", Json.int 1), ("data", Json.str ("9.9.9.9"))]] :=
  malformed_record_skipped 2 1
    ⟨[1, 2, 3, 4] ++ List.replicate 12 0, true⟩
    [("data", Json.str ("5.6.7.8"))]
    [Json.obj [("type", Json.int 1), ("data", Json.str ("1.2.3.4"))]]
    [Json.obj [("type", Json.int 1), ("data", Json.str ("9.9.9.9"))]]
    (Or.inl rfl)

/-- C3: when resolution fails because the answer array contributes no
successfully parsed matching record (in particular when it is empty, has no
record of the wanted type, or every matching record fails parsing), on_res
hands nothing to the output stream; conversely, whenever on_res does hand
bytes to the write, the body carried an Answer array in which at least one
matching record parsed successfully. -/
theorem notfound_writes_nothing (af : Nat) (want : Int) :
    (∀ answers : List Json,
      answers.filterMap (extractAddr af want) = [] →
      on_res af want
        ⟨200, true, some (Json.obj [("Answer", Json.arr answers)])⟩ = none) ∧
    (∀ (r : ResolverInteraction) (bytes : List Nat),
      on_res af want r = some bytes →
      ∃ root ms answers, r.body = some root ∧
        json_node_get_object root = some ms ∧
        json_object_get_array_member ms ("Answer") = some answers ∧
        answers.filterMap (extractAddr af want) ≠ []) := by
  constructor
  · intro answers hfm
    have hok : (select af want answers).ok = false := by
      rw [← Bool.not_eq_true, select_ok_iff]
      exact not_not_intro hfm
    unfold on_res
    have hsf : send_finish
        ⟨200, true, some (Json.obj [("Answer", Json.arr answers)])⟩ =
        some (some (Json.obj [("Answer", Json.arr answers)])) := rfl
    rw [hsf]
    show (match json_object_get_array_member
        [("Answer", Json.arr answers)] ("Answer") with
      | none => none
      | some answers =>
        if (select af want answers).ok then some (select af want answers).addr
        else none) = none
    have hga : json_object_get_array_member
        [("Answer", Json.arr answers)] ("Answer") = some answers := rfl
    rw [hga]
    show (if (select af want answers).ok then some _ else none) = none
    rw [hok]
    rfl
  · intro r bytes h
    unfold on_res at h
    split at h
    · cases h
    · cases h
    · next root hsf =>
      split at h
      · cases h
      · next ms hms =>
        split at h
        · cases h
        · next answers hans =>
          split at h
          · next hok =>
            refine ⟨root, ms, answers, ?_, hms, hans,
              (select_ok_iff af want answers).mp hok⟩
            unfold send_finish at hsf
            split at hsf
            · injection hsf
            · cases hsf
          · cases h

/-- C3 witness: an empty Answer array yields no written bytes, and a
successful write implies a nonempty set of parsed matching records. -/
theorem notfound_writes_nothing_witness :
    on_res 2 1 ⟨200, true, some (Json.obj [("Answer", Json.arr [])])⟩
      = none ∧
    ∃ root ms answers,
      (ResolverInteraction.mk 200 true
        (some (Json.obj [("Answer", Json.arr
          [Json.obj [("type", Json.int 1),
            ("data", Json.str ("1.2.3.4"))]])]))).body = some root ∧
      json_node_get_object root = some ms ∧
      json_object_get_array_member ms ("Answer") = some answers ∧
      answers.filterMap (extractAddr 2 1) ≠ [] :=
  ⟨(notfound_writes_nothing 2 1).1 [] rfl,
   (notfound_writes_nothing 2 1).2
     ⟨200, true, some (Json.obj [("Answer", Json.arr
       [Json.obj [("type", Json.int 1), ("data", Json.str ("1.2.3.4"))]])])⟩
     ([1, 2, 3, 4] ++ List.replicate 12 0) (by decide)⟩

/-- C4: a request whose frame is not exactly sizeof(struct nss_tls_req), or
whose address family is neither AF_INET nor AF_INET6, drives on_req to its
fail path: no DoH fetch is issued and the session trace is just the read
followed by the release, with no response bytes written. -/
theorem malformed_request_aborts (len : Nat) (req : NssTlsReq)
    (tr : ResolverInteraction) (writeOk : Bool)
    (h : len ≠ sizeof_nss_tls_req ∨
         (req.af ≠ AF_INET ∧ req.af ≠ AF_INET6)) :
    on_req (ReadOutcome.readOk len req) = ReqAction.closed ∧
    sessionTrace (ReadOutcome.readOk len req) tr writeOk
      = [Ev.readReq, Ev.release] ∧
    (sessionTrace (ReadOutcome.readOk len req) tr writeOk).count Ev.fetchEv
      = 0 ∧
    (sessionTrace (ReadOutcome.readOk len req) tr writeOk).count Ev.writeRes
      = 0 := by
  have h1 : on_req (ReadOutcome.readOk len req) = ReqAction.closed := by
    show (if len ≠ sizeof_nss_tls_req then ReqAction.closed
      else if req.af = AF_INET then
        ReqAction.fetch ("https://" ++ NSS_TLS_RESOLVER ++
          "/dns-query?ct=application/dns-json&name=" ++ req.name ++
          "&type=A") 1 req
      else if req.af = AF_INET6 then
        ReqAction.fetch ("https://" ++ NSS_TLS_RESOLVER ++
          "/dns-query?ct=application/dns-json&name=" ++ req.name ++
          "&type=AAAA") 28 req
      else ReqAction.closed) = ReqAction.closed
    by_cases hlen : len = sizeof_nss_tls_req
    · rcases h with h | ⟨h4, h6⟩
      · exact absurd hlen h
      · rw [if_neg (not_not_intro hlen), if_neg h4, if_neg h6]
    · rw [if_pos hlen]
  have h2 : sessionTrace (ReadOutcome.readOk len req) tr writeOk
      = [Ev.readReq, Ev.release] := by
    unfold sessionTrace
    rw [h1]
  exact ⟨h1, h2, by rw [h2]; rfl, by rw [h2]; rfl⟩

/-- C4 witness: a zero-length frame (readable but short) is rejected: no
fetch event, no write event, immediate close. -/
theorem malformed_request_aborts_witness :
    on_req (ReadOutcome.readOk 0 ⟨"example.com", 2⟩) = ReqAction.closed ∧
    sessionTrace (ReadOutcome.readOk 0 ⟨"example.com", 2⟩)
      ⟨200, true, none⟩ true = [Ev.readReq, Ev.release] ∧
    (sessionTrace (ReadOutcome.readOk 0 ⟨"example.com", 2⟩)
      ⟨200, true, none⟩ true).count Ev.fetchEv = 0 ∧
    (sessionTrace (ReadOutcome.readOk 0 ⟨"example.com", 2⟩)
      ⟨200, true, none⟩ true).count Ev.writeRes = 0 :=
  malformed_request_aborts 0 ⟨"example.com", 2⟩ ⟨200, true, none⟩ true
    (Or.inl (by decide))

/-- C5: a resolver interaction completing with a non-success HTTP status is
treated by on_res exactly like a transport failure: the session aborts with
no bytes handed to the output stream (and a transport-level failure gives
the same result); nothing is retried, on_res being the only continuation of
the single soup_session_send_async call. -/
theorem non_success_status_aborts (af : Nat) (want : Int)
    (r : ResolverInteraction) (s : Nat) (b : Option Json)
    (h : ¬(200 ≤ r.status ∧ r.status ≤ 299)) :
    on_res af want r = none ∧ on_res af want ⟨s, false, b⟩ = none := by
  constructor
  · have hsf : send_finish r = none := by
      unfold send_finish
      rw [if_neg]
      rintro ⟨_, h2, h3⟩
      exact h ⟨h2, h3⟩
    unfold on_res
    rw [hsf]
  · have hsf : send_finish ⟨s, false, b⟩ = none := by
      unfold send_finish
      rw [if_neg]
      rintro ⟨h1, _⟩
      cases h1
    unfold on_res
    rw [hsf]

/-- C5 witness: a 404 response whose body even carries a valid matching
answer still produces no written bytes, as does a plain transport error. -/
theorem non_success_status_aborts_witness :
    on_res 2 1 ⟨404, true, some (Json.obj [("Answer", Json.arr
      [Json.obj [("type", Json.int 1), ("data", Json.str ("1.2.3.4"))]])])⟩
      = none ∧
    on_res 2 1 ⟨0, false, none⟩ = none :=
  non_success_status_aborts 2 1
    ⟨404, true, some (Json.obj [("Answer", Json.arr
      [Json.obj [("type", Json.int 1), ("data", Json.str ("1.2.3.4"))]])])⟩
    0 none (by decide)

/-- C6: for a well-sized request, the query builder maps the address family
1:1 to the DNS type code and mnemonic (AF_INET to code 1 and A, AF_INET6 to
code 28 and AAAA) and builds the HTTPS GET URL against the fixed resolver
host with path /dns-query and the JSON content-type hint, the request name
verbatim, and the type mnemonic as query parameters. -/
theorem query_builder_url (name : String) :
    on_req (ReadOutcome.readOk sizeof_nss_tls_req ⟨name, AF_INET⟩)
      = ReqAction.fetch
        ("https://" ++ NSS_TLS_RESOLVER ++
          "/dns-query?ct=application/dns-json&name=" ++ name ++ "&type=A")
        1 ⟨name, AF_INET⟩ ∧
    on_req (ReadOutcome.readOk sizeof_nss_tls_req ⟨name, AF_INET6⟩)
      = ReqAction.fetch
        ("https://" ++ NSS_TLS_RESOLVER ++
          "/dns-query?ct=application/dns-json&name=" ++ name ++ "&type=AAAA")
        28 ⟨name, AF_INET6⟩ :=
  ⟨rfl, rfl⟩

/-- C7: a resolver body that parses as JSON but whose top-level value is
not an object, or whose top-level object lacks an Answer array member,
makes on_res abort with no bytes handed to the output stream. -/
theorem missing_answer_parse_failure (af : Nat) (want : Int) (root : Json)
    (h : json_node_get_object root = none ∨
         ∃ ms, json_node_get_object root = some ms ∧
           json_object_get_array_member ms ("Answer") = none) :
    on_res af want ⟨200, true, some root⟩ = none := by
  unfold on_res
  have hsf : send_finish ⟨200, true, some root⟩ = some (some root) := rfl
  rw [hsf]
  show (match json_node_get_object root with
    | none => none
    | some rooto =>
      match json_object_get_array_member rooto ("Answer") with
      | none => none
      | some answers =>
        if (select af want answers).ok then some (select af want answers).addr
        else none) = none
  rcases h with h | ⟨ms, hms, ha⟩
  · rw [h]
  · rw [hms]
    show (match json_object_get_array_member ms ("Answer") with
      | none => none
      | some answers =>
        if (select af want answers).ok then some (select af want answers).addr
        else none) = none
    rw [ha]

/-- C7 witness: a top-level JSON array instead of an object produces no
written bytes. -/
theorem missing_answer_parse_failure_witness :
    on_res 2 1 ⟨200, true, some (Json.arr [])⟩ = none :=
  missing_answer_parse_failure 2 1 (Json.arr []) (Or.inl rfl)

/-- C8: on every exit path of a session (read failure, malformed frame,
unsupported family, transport or parse failure, no matching answer,
successful or failed writeback) the trace releases the connection and the
query memory exactly once, and the release is the final event, so no
further I/O follows it. -/
theorem release_exactly_once (rr : ReadOutcome) (tr : ResolverInteraction)
    (writeOk : Bool) :
    (sessionTrace rr tr writeOk).count Ev.release = 1 ∧
    (sessionTrace rr tr writeOk).getLast? = some Ev.release := by
  unfold sessionTrace
  cases on_req rr with
  | closed => exact ⟨rfl, rfl⟩
  | fetch url ty req =>
    show (match on_res req.af ty tr with
        | none => [Ev.readReq, Ev.fetchEv, Ev.release]
        | some _ => [Ev.readReq, Ev.fetchEv, Ev.writeRes,
            Ev.release]).count Ev.release = 1 ∧
      (match on_res req.af ty tr with
        | none => [Ev.readReq, Ev.fetchEv, Ev.release]
        | some _ => [Ev.readReq, Ev.fetchEv, Ev.writeRes,
            Ev.release]).getLast? = some Ev.release
    cases on_res req.af ty tr with
    | none => exact ⟨rfl, rfl⟩
    | some bytes => exact ⟨rfl, rfl⟩

/-- C10: whenever an IPv4 session writes a response, the written buffer is
the full fixed 16 bytes and every byte after the 4-byte IPv4 address is
zero: the query is allocated zero-initialized and IPv4 parsing only ever
overwrites the 4-byte prefix of the address buffer. -/
theorem ipv4_response_tail_zero (r : ResolverInteraction)
    (bytes : List Nat) (h : on_res AF_INET 1 r = some bytes) :
    bytes.length = addrSize ∧ bytes.drop 4 = List.replicate 12 0 := by
  unfold on_res at h
  split at h
  · cases h
  · cases h
  · split at h
    · cases h
    · split at h
      · cases h
      · next answers _ =>
        split at h
        · next hok =>
          injection h with h
          subst h
          have hlen : ∀ b ∈ answers.filterMap (extractAddr AF_INET 1),
              b.length = 4 := by
            intro b hb
            obtain ⟨x, _, hxe⟩ := List.mem_filterMap.mp hb
            rw [extractAddr_length AF_INET 1 x b hxe]
            rfl
          have hsel : select AF_INET 1 answers =
              applyExtracts ⟨List.replicate addrSize 0, false⟩
                (answers.filterMap (extractAddr AF_INET 1)) :=
            foldl_on_answer_eq AF_INET 1 answers _
          constructor
          · rw [hsel,
              applyExtracts_length _ _ 4 hlen (by simp [addrSize])]
            simp [addrSize]
          · rw [hsel, applyExtracts_drop _ _ 4 hlen]
            rfl
        · cases h

/-- C10 witness: the spec's concrete scenario, 93.184.216.34 resolved over
IPv4: the 16-byte response is the 4 address bytes followed by 12 zeros. -/
theorem ipv4_response_tail_zero_witness :
    ([93, 184, 216, 34] ++ List.replicate 12 0 : List Nat).length = addrSize
      ∧ ([93, 184, 216, 34] ++ List.replicate 12 0 : List Nat).drop 4
        = List.replicate 12 0 :=
  ipv4_response_tail_zero
    ⟨200, true, some (Json.obj [("Answer", Json.arr
      [Json.obj [("type", Json.int 1),
        ("data", Json.str ("93.184.216.34"))]])])⟩
    ([93, 184, 216, 34] ++ List.replicate 12 0) (by decide)

end NssTls
